import Mathlib

/-!
Shallow embedding of the core logic of nhlpyscrape (src/nhlpyscrape.py):
the season-acquisition walk (scrape_season), the scoring function
(calc_points), the game-id composition of lines 62-63, the rest-days
analytics of analysis_restdays (gap classification, rolling 10-day
window, day-keyed team map), and the standings fold (analyze_standings).

Machine conventions: Python ints are Nat/Int, floats from datetime
arithmetic are exact rationals, datetimes are rational hours (for gaps)
or integer calendar days (for the rolling window), and sys.exit /
uncaught exceptions are Option/Except error values.
-/

/-! ## Identifier composition (scrape_season, lines 62-63) -/

/-- Decimal digit count of a natural number, computed with an explicit
recursion bound (the bound only shrinks while the number is at least 10,
so any bound at least the true digit count is enough; we pass the number
itself). -/
def numDigitsAux : Nat → Nat → Nat
  | _, 0 => 1
  | n, b + 1 => if n < 10 then 1 else numDigitsAux (n / 10) b + 1

/-- Decimal digit count: the length of str(n). -/
def numDigits (n : Nat) : Nat := numDigitsAux n n

/-- Length of the string produced by the Python format spec 04d at
line 63: zero-padded to a minimum width of 4, wider when the value has
more than 4 digits (the format never fails or truncates). -/
def padLen (seq : Nat) : Nat := max 4 (numDigits seq)

/-- Line 62-63: game_id = int(str(current_year) + season_type +
formatted game number), with season_type a two-character digit code
(kind is its numeric value, e.g. 2 for the regular season code). String
concatenation followed by int() is, numerically, placing year above the
2 kind digits, which sit above the padLen seq digits of the sequence. -/
def encode_game_id (year kind seq : Nat) : Nat :=
  year * 10 ^ (2 + padLen seq) + kind * 10 ^ padLen seq + seq

/-- Modelled from the spec: no decode operation exists anywhere in the
source; spec section 4.1 requires a decode that is the exact inverse of
encode, reading the era above the 6 low digits, the kind code from the
two digits below it, and the sequence from the 4 low digits. -/
def decode_game_id (id : Nat) : Nat × Nat × Nat :=
  (id / 10 ^ 6, id / 10 ^ 4 % 100, id % 10 ^ 4)

/-! ## Scoring (calc_points, lines 95-122) -/

/-- Lines 97-102: winner classification from the goal counts. -/
def calc_winner (away_goals home_goals : Nat) : String :=
  if away_goals > home_goals then "away"
  else if away_goals < home_goals then "home"
  else "tie"

/-- Lines 104-122: calc_points returns the triple
(winner, home_points, away_points); the final else branch is
sys.exit, reached exactly for a tie without overtime, embedded as
none. -/
def calc_points (overtime : Bool) (away_goals home_goals : Nat) :
    Option (String × Nat × Nat) :=
  let w := calc_winner away_goals home_goals
  if overtime = false ∧ w = "away" then some (w, 0, 2)
  else if overtime = false ∧ w = "home" then some (w, 2, 0)
  else if overtime = true ∧ w = "away" then some (w, 1, 2)
  else if overtime = true ∧ w = "home" then some (w, 2, 1)
  else if overtime = true ∧ w = "tie" then some (w, 1, 1)
  else none

/-- Written from the spec's scoring table (section 4.3), for comparison
with calc_points: the (away points, home points) row selected by the
overtime flag and the goal comparison, none where the table has no
row. -/
def spec_points_row (overtime : Bool) (away_goals home_goals : Nat) :
    Option (Nat × Nat) :=
  if overtime = false ∧ away_goals > home_goals then some (2, 0)
  else if overtime = false ∧ home_goals > away_goals then some (0, 2)
  else if overtime = true ∧ away_goals > home_goals then some (2, 1)
  else if overtime = true ∧ home_goals > away_goals then some (1, 2)
  else if overtime = true ∧ away_goals = home_goals then some (1, 1)
  else none

/-! ## Acquisition walk (scrape_season, lines 43-92)

The fetch collaborator returns the raw payload; only the gamePk field
matters to the walk, so a fetched record is its optional gamePk. -/

/-- A fetched record: the embedded gamePk identifier, or none when the
payload carries no gamePk key (subscripting then raises KeyError). -/
structure FetchRec where
  gamePk : Option Nat
  deriving DecidableEq

/-- The Python exceptions that can surface in the loop body of
scrape_season. -/
inductive PyExc
  | nameError
  | keyError
  | assertionError
  | fileNotFoundError
  | permissionError
  deriving DecidableEq

/-- The loop variables of scrape_season (lines 55-57). -/
structure ScrapeState where
  run_status : Bool
  current_year : Nat
  current_game : Nat
  deriving DecidableEq

/-- Observable outcome of a run of scrape_season: the game ids fetched
(line 68), the game ids whose records were written to file (lines
74-76), and the uncaught exception if the function aborted with one. -/
structure ScrapeTrace where
  fetched : List Nat
  persisted : List Nat
  uncaught : Option PyExc
  deriving DecidableEq

/-- The value of the local name result when line 72 executes. Line 68
reads scrape_game(game_id): the return value of scrape_game is
discarded, no assignment to result ever executes inside scrape_season,
so the name is unbound. -/
def resultBinding : Option FetchRec := none

/-- Evaluating a name raises NameError when the name is unbound. -/
def evalName (binding : Option FetchRec) : Except PyExc FetchRec :=
  match binding with
  | none => Except.error PyExc.nameError
  | some r => Except.ok r

/-- Subscripting the gamePk key raises KeyError when it is absent. -/
def getGamePk (r : FetchRec) : Except PyExc Nat :=
  match r.gamePk with
  | none => Except.error PyExc.keyError
  | some v => Except.ok v

/-- The assert statement of line 72. -/
def assertEq (a b : Nat) : Except PyExc Unit :=
  if a = b then Except.ok () else Except.error PyExc.assertionError

/-- The try block, lines 71-79: evaluate the name result (line 68
discarded the fetch result, see resultBinding), subscript gamePk,
assert equality with game_id, then write the record; returns the
persisted game id on success. -/
def tryBlock (game_id : Nat) : Except PyExc Nat :=
  match evalName resultBinding with
  | Except.error e => Except.error e
  | Except.ok r =>
    match getGamePk r with
    | Except.error e => Except.error e
    | Except.ok pk =>
      match assertEq pk game_id with
      | Except.error e => Except.error e
      | Except.ok _ => Except.ok game_id

/-- Result of one pass through the loop body (lines 60-92): either the
next loop state together with the fetched id and the optionally
persisted id, or an exception none of the handlers catches. -/
inductive LoopStep
  | next (st : ScrapeState) (fetchedId : Nat) (persistedId : Option Nat)
  | uncaught (e : PyExc) (fetchedId : Nat)
  deriving DecidableEq

/-- One pass through the while body: build game_id (lines 62-63), call
the fetch collaborator (line 68, result discarded), run the try block,
and dispatch on the handlers of lines 80-92 (KeyError rolls the season
over or stops; FileNotFoundError and PermissionError stop; anything
else propagates out of the function). -/
def scrape_iteration (fetch : Nat → FetchRec) (end_year season_type : Nat)
    (st : ScrapeState) : LoopStep :=
  let game_id := encode_game_id st.current_year season_type st.current_game
  let _ := fetch game_id
  match tryBlock game_id with
  | Except.ok written =>
      LoopStep.next ⟨true, st.current_year, st.current_game + 1⟩ game_id (some written)
  | Except.error PyExc.keyError =>
      if st.current_year < end_year then
        LoopStep.next ⟨true, st.current_year + 1, 1⟩ game_id none
      else
        LoopStep.next ⟨false, st.current_year, st.current_game⟩ game_id none
  | Except.error PyExc.fileNotFoundError =>
      LoopStep.next ⟨false, st.current_year, st.current_game⟩ game_id none
  | Except.error PyExc.permissionError =>
      LoopStep.next ⟨false, st.current_year, st.current_game⟩ game_id none
  | Except.error e => LoopStep.uncaught e game_id

/-- The while loop of lines 60-92, with an explicit iteration budget
(the source loop is unbounded; every theorem below holds for any
positive budget). -/
def scrape_loop (fetch : Nat → FetchRec) (end_year season_type : Nat) :
    Nat → ScrapeState → ScrapeTrace
  | 0, _ => ⟨[], [], none⟩
  | fuel + 1, st =>
    if st.run_status then
      match scrape_iteration fetch end_year season_type st with
      | LoopStep.next st2 fid pid =>
          let rest := scrape_loop fetch end_year season_type fuel st2
          ⟨fid :: rest.fetched,
           (match pid with | some p => p :: rest.persisted | none => rest.persisted),
           rest.uncaught⟩
      | LoopStep.uncaught e fid => ⟨[fid], [], some e⟩
    else ⟨[], [], none⟩

/-- scrape_season (lines 43-92): initialize the loop variables and run
the main loop. -/
def scrape_season (fetch : Nat → FetchRec)
    (start_year end_year season_type start_game fuel : Nat) : ScrapeTrace :=
  scrape_loop fetch end_year season_type fuel ⟨true, start_year, start_game⟩

/-! ## Rest-days gap walk (analysis_restdays, lines 439-469)

Timestamps are rational hours measured from the dummy previous-game
instant of line 441 (datetime(1990, 1, 1) US/Pacific), so the seed is 0
on this axis; a timedelta rendered as days * 24 + seconds / 3600 is
exactly the difference of the two instants in hours. -/

/-- Line 441: the dummy previous-game timestamp, the origin of the hour
axis. -/
def prev_game_seed : ℚ := 0

/-- Lines 459-464: time_off_note from hours_off. -/
def classify (hours_off : ℚ) : String :=
  if hours_off > 480 then "opener"
  else if hours_off > 120 then "break"
  else "regular"

/-- Lines 444-469: process one team's games in order; for each game
require game_date > prev_game (else line 453 is sys.exit, embedded as
none), emit (hours_off, time_off_note), and advance prev_game. -/
def timeOffWalk : ℚ → List ℚ → Option (List (ℚ × String))
  | _, [] => some []
  | prev, g :: rest =>
    if prev < g then
      match timeOffWalk g rest with
      | some out => some ((g - prev, classify (g - prev)) :: out)
      | none => none
    else none

/-- The gap pass of analysis_restdays applied to one team's
chronological game timestamps, starting from the line 441 seed. -/
def analysis_restdays_gaps (events : List ℚ) : Option (List (ℚ × String)) :=
  timeOffWalk prev_game_seed events

/-! ## Rolling 10-day window (analysis_restdays, lines 475-497)

Calendar days are integers on a linear day axis; the YYYYMMDD integer
key of line 427 is an injective encoding of the calendar day, and
adding timedelta(days=1) at line 489 advances the calendar day by one
while the time of day is held fixed, so key membership per iteration is
membership of the iteration's day. -/

/-- Lines 486-495: the while loop, counting window days whose key is
present in the team's day-keyed games. analysis_day starts 10 days
before game_date and advances one day per pass while it is before
game_date, so the loop makes exactly 10 passes; the remaining-pass
count makes the recursion structural and the loop guard is kept. -/
def matchCountLoop (dayKeys : List Int) (game_date : Int) :
    Nat → Int → Nat
  | 0, _ => 0
  | n + 1, analysis_day =>
    if analysis_day < game_date then
      (if analysis_day ∈ dayKeys then 1 else 0) +
        matchCountLoop dayKeys game_date n (analysis_day + 1)
    else 0

/-- Lines 483-497: games_in_last_10_days for a game on day game_date,
given the team's event day keys. -/
def games_in_last_10_days (dayKeys : List Int) (game_date : Int) : Nat :=
  matchCountLoop dayKeys game_date 10 (game_date - 10)

/-- Written from the claim's words, for comparison: the number of
calendar days in the half-open interval [T - 10 days, T) on which the
entity has an event. -/
def spec_rolling_count (dayKeys : List Int) (t : Int) : Nat :=
  ((Finset.Ico (t - 10) t).filter (fun d => d ∈ dayKeys)).card

/-! ## Standings fold (analyze_standings, lines 260-271) -/

/-- One entry of the processed-data file as read at lines 261-263:
season and points already passed through int(). -/
structure GameEntry where
  season : Int
  team : String
  points : Int
  deriving DecidableEq

/-- Lines 265-271: create the season bucket if absent, then set the
team's total to points if the team is new, else add points to it. The
nested dicts are embedded as a lookup function. -/
def addEntry (acc : Int → String → Option Int) (e : GameEntry) :
    Int → String → Option Int :=
  fun s t =>
    if s = e.season ∧ t = e.team then
      match acc e.season e.team with
      | none => some e.points
      | some p => some (p + e.points)
    else acc s t

/-- The summarizing loop of lines 260-271 over the file's entries in
enumeration order. -/
def analyze_standings_totals (entries : List GameEntry) :
    Int → String → Option Int :=
  entries.foldl addEntry (fun _ _ => none)

/-! ## Day-keyed team map (analysis_restdays, lines 421-434) -/

/-- The fields of a processed-data record that the team-map build step
reads: the local calendar day derived at lines 426-427 from
game_datetime_pst, and the game id. -/
structure TeamGameRec where
  dayKey : Int
  gameId : Int
  deriving DecidableEq

/-- Lines 424-428: one pass over league_data in enumeration order; an
entry whose guid ends in the team tag is written into a dict keyed by
its local calendar day, so a later entry with the same day key
overwrites the earlier one. -/
def buildTeamDayMap (league : List (String × TeamGameRec)) (team : String) :
    Int → Option TeamGameRec :=
  league.foldl
    (fun m g =>
      if g.1.takeRight 3 = team then
        fun d => if d = g.2.dayKey then some g.2 else m d
      else m)
    (fun _ => none)

/-! ## Helper lemmas -/

theorem numDigitsAux_le (b : Nat) : ∀ n k, 1 ≤ k → n < 10 ^ k → numDigitsAux n b ≤ k := by
  induction b with
  | zero =>
    intro n k hk _
    simp [numDigitsAux]
    omega
  | succ b ih =>
    intro n k hk hn
    rw [numDigitsAux]
    by_cases h10 : n < 10
    · simp [h10]
      omega
    · simp [h10]
      rcases k with _ | k
      · omega
      rcases k with _ | k
      · norm_num at hn
        omega
      · have h1 : n / 10 < 10 ^ (k + 1) := by
          rw [Nat.div_lt_iff_lt_mul (by norm_num : (0 : Nat) < 10)]
          calc n < 10 ^ (k + 2) := hn
            _ = 10 ^ (k + 1) * 10 := by ring
        have h2 := ih (n / 10) (k + 1) (by omega) h1
        omega

theorem padLen_eq_four {seq : Nat} (h : seq ≤ 9999) : padLen seq = 4 := by
  have hle := numDigitsAux_le seq seq 4 (by omega) (by norm_num; omega)
  unfold padLen numDigits
  omega

/-- C3 (amended): for every era, every kind code below 100, and every
sequence in [1, 9999], decoding the encoded identifier returns exactly
the inputs. (The source encoder never fails: see the counterexample for
the InvalidSequence half of the claim.) -/
theorem decode_encode_game_id (era kind seq : Nat) (hkind : kind < 100)
    (h1 : 1 ≤ seq) (h2 : seq ≤ 9999) :
    decode_game_id (encode_game_id era kind seq) = (era, kind, seq) := by
  have hp : padLen seq = 4 := padLen_eq_four h2
  simp only [encode_game_id, decode_game_id, hp, Prod.mk.injEq]
  norm_num
  refine ⟨?_, ?_, ?_⟩ <;> omega

/-- Witness for the C3 roundtrip at era 2016, kind 2, sequence 1234. -/
theorem decode_encode_game_id_witness :
    2 < 100 ∧ 1 ≤ 1234 ∧ 1234 ≤ 9999 ∧
      decode_game_id (encode_game_id 2016 2 1234) = (2016, 2, 1234) :=
  ⟨by norm_num, by norm_num, by norm_num,
    decode_encode_game_id 2016 2 1234 (by norm_num) (by norm_num) (by norm_num)⟩

/-- C3 counterexample: at sequence 10000 (greater than 9999) the
encoder of lines 62-63 does not fail with InvalidSequence or anything
else: the 04d format simply widens to 5 digits, the era and kind fields
shift, and the id no longer decodes to the inputs. -/
theorem encode_game_id_overflow_no_failure :
    encode_game_id 2016 2 10000 = 20160210000 ∧
      decode_game_id (encode_game_id 2016 2 10000) = (20160, 21, 0) := by
  constructor
  · decide
  · decide

/-- C2: whenever calc_points returns (lines 104-122, returning the
triple winner, home_points, away_points), the away and home point
values are exactly the spec table row for the inputs. -/
theorem calc_points_matches_table (ot : Bool) (a h : Nat)
    (w : String) (hp ap : Nat)
    (hret : calc_points ot a h = some (w, hp, ap)) :
    spec_points_row ot a h = some (ap, hp) := by
  rcases Nat.lt_trichotomy a h with hlt | heq | hgt
  · have hna : ¬ h < a := by omega
    have hne : ¬ a = h := by omega
    cases ot <;>
      simp [calc_points, calc_winner, spec_points_row, hlt, hna, hne] at hret ⊢ <;>
      simp_all
  · have h1 : ¬ a < h := by omega
    have h2 : ¬ h < a := by omega
    cases ot <;>
      simp [calc_points, calc_winner, spec_points_row, h1, h2, heq] at hret ⊢ <;>
      simp_all [Prod.ext_iff] <;> omega
  · have hna : ¬ a < h := by omega
    have hne : ¬ a = h := by omega
    cases ot <;>
      simp [calc_points, calc_winner, spec_points_row, hgt, hna, hne] at hret ⊢ <;>
      simp_all

/-- Witness for C2 at an overtime tie. -/
theorem calc_points_matches_table_witness :
    calc_points true 3 3 = some ("tie", 1, 1) ∧
      spec_points_row true 3 3 = some (1, 1) :=
  ⟨by decide, calc_points_matches_table true 3 3 ("tie") 1 1 (by decide)⟩

/-- C6: calc_points reaches the sys.exit branch (line 120) exactly on a
tie without overtime; on every other input combination it returns point
values. -/
theorem calc_points_none_iff (ot : Bool) (a h : Nat) :
    calc_points ot a h = none ↔ ot = false ∧ a = h := by
  rcases Nat.lt_trichotomy a h with hlt | heq | hgt
  · have hna : ¬ h < a := by omega
    have hne : ¬ a = h := by omega
    cases ot <;> simp [calc_points, calc_winner, hlt, hna, hne]
  · have h1 : ¬ a < h := by omega
    have h2 : ¬ h < a := by omega
    cases ot <;> simp [calc_points, calc_winner, h1, h2, heq]
  · have hna : ¬ a < h := by omega
    have hne : ¬ a = h := by omega
    cases ot <;> simp [calc_points, calc_winner, hgt, hna, hne]

/-- C4: the gap classification of lines 459-464 labels a non-negative
gap opener exactly when it exceeds 480 hours, break exactly when it is
in (120, 480], and regular exactly when it is at most 120 hours; in
particular 480.0 is break, 480.01 opener, 120.0 regular and 120.01
break. -/
theorem classify_boundaries (g : ℚ) (hg : 0 ≤ g) :
    (classify g = "opener" ↔ 480 < g) ∧
    (classify g = "break" ↔ 120 < g ∧ g ≤ 480) ∧
    (classify g = "regular" ↔ g ≤ 120) ∧
    classify (480 : ℚ) = "break" ∧ classify (48001 / 100 : ℚ) = "opener" ∧
    classify (120 : ℚ) = "regular" ∧ classify (12001 / 100 : ℚ) = "break" := by
  have hop : classify g = "opener" ↔ 480 < g := by
    rcases lt_or_le 480 g with h1 | h1
    · simp [classify, h1]
    · have h2 : ¬ (480 : ℚ) < g := not_lt.mpr h1
      by_cases h3 : (120 : ℚ) < g <;> simp [classify, h2, h3]
  have hbr : classify g = "break" ↔ 120 < g ∧ g ≤ 480 := by
    rcases lt_or_le 480 g with h1 | h1
    · simp [classify, h1]
    · have h2 : ¬ (480 : ℚ) < g := not_lt.mpr h1
      by_cases h3 : (120 : ℚ) < g <;> simp [classify, h2, h3, h1]
  have hrg : classify g = "regular" ↔ g ≤ 120 := by
    rcases lt_or_le 480 g with h1 | h1
    · simp [classify, h1]
      all_goals linarith
    · have h2 : ¬ (480 : ℚ) < g := not_lt.mpr h1
      by_cases h3 : (120 : ℚ) < g <;> simp [classify, h2, h3]
      all_goals linarith
  refine ⟨hop, hbr, hrg, ?_, ?_, ?_, ?_⟩ <;> norm_num [classify]

/-- Witness for C4 at gap 0 (a same-day turnaround is regular). -/
theorem classify_boundaries_witness :
    (0 : ℚ) ≤ 0 ∧
      ((classify (0 : ℚ) = "opener" ↔ 480 < (0 : ℚ)) ∧
        (classify (0 : ℚ) = "break" ↔ 120 < (0 : ℚ) ∧ (0 : ℚ) ≤ 480) ∧
        (classify (0 : ℚ) = "regular" ↔ (0 : ℚ) ≤ 120) ∧
        classify (480 : ℚ) = "break" ∧ classify (48001 / 100 : ℚ) = "opener" ∧
        classify (120 : ℚ) = "regular" ∧ classify (12001 / 100 : ℚ) = "break") :=
  ⟨by norm_num, classify_boundaries 0 (by norm_num)⟩

theorem timeOffWalk_none_iff (l : List ℚ) : ∀ prev : ℚ,
    timeOffWalk prev l = none ↔ ¬ List.Chain (fun x y : ℚ => x < y) prev l := by
  induction l with
  | nil =>
    intro prev
    simp [timeOffWalk]
  | cons g rest ih =>
    intro prev
    rw [timeOffWalk]
    by_cases hpg : prev < g
    · rw [if_pos hpg]
      cases hw : timeOffWalk g rest with
      | some out =>
        have hc : List.Chain (fun x y : ℚ => x < y) g rest := by
          have h5 := ih g
          rw [hw] at h5
          simpa using h5
        simp [List.chain_cons, hpg, hc]
      | none =>
        have hnc : ¬ List.Chain (fun x y : ℚ => x < y) g rest := (ih g).mp hw
        simp [List.chain_cons, hpg, hnc]
    · rw [if_neg hpg]
      simp [List.chain_cons, hpg]

/-- C8 (amended): the gap walk of lines 444-469 aborts via the sys.exit
of line 453 exactly when the timestamps with the line 441 sentinel
prepended are not strictly increasing, i.e. exactly when some gap would
be non-positive (a zero gap aborts too, not only negative ones); for
strictly increasing timestamps all after the sentinel it never
aborts. -/
theorem analysis_restdays_gaps_none_iff (events : List ℚ) :
    analysis_restdays_gaps events = none ↔
      ¬ List.Chain (fun x y : ℚ => x < y) prev_game_seed events :=
  timeOffWalk_none_iff events prev_game_seed

/-- C8 counterexample: two events with equal timestamps make the walk
abort although the computed gap there would be 0, which is not
negative. -/
theorem gap_zero_still_exits :
    analysis_restdays_gaps [500, 500] = none ∧ ¬ ((500 : ℚ) - 500 < 0) := by
  constructor
  · norm_num [analysis_restdays_gaps, timeOffWalk, prev_game_seed]
  · norm_num

/-- C7 counterexample: a single event 96 hours after the line 441
sentinel (1990-01-05) has its gap classified regular, not opener,
because the sentinel is a fixed date rather than one earlier than all
representable data. -/
theorem first_event_not_opener_shortly_after_1990 :
    analysis_restdays_gaps [96] = some [(96, "regular")] ∧
      "regular" ≠ "opener" := by
  constructor
  · norm_num [analysis_restdays_gaps, timeOffWalk, prev_game_seed, classify]
  · decide

/-- C7 (amended): the sentinel of line 441 is the fixed instant
1990-01-01 00:00 US/Pacific; for every strictly increasing non-empty
event sequence whose first event is more than 480 hours after that
instant, the sentinel is earlier than every event and the first event's
gap is classified opener. -/
theorem first_event_opener_when_late (t : ℚ) (rest : List ℚ)
    (hchain : List.Chain (fun x y : ℚ => x < y) t rest) (ht : 480 < t) :
    (∀ u ∈ t :: rest, prev_game_seed < u) ∧
      ∃ out, analysis_restdays_gaps (t :: rest) =
        some ((t - prev_game_seed, "opener") :: out) := by
  have h0t : prev_game_seed < t := by
    unfold prev_game_seed
    linarith
  constructor
  · intro u hu
    rcases List.mem_cons.mp hu with rfl | hu2
    · exact h0t
    · have hpair := List.chain_iff_pairwise.mp hchain
      have htu := List.rel_of_pairwise_cons hpair hu2
      calc prev_game_seed < t := h0t
        _ < u := htu
  · have hsome : ¬ timeOffWalk t rest = none := by
      rw [timeOffWalk_none_iff]
      simp [hchain]
    rcases ho : timeOffWalk t rest with _ | out
    · exact absurd ho hsome
    · refine ⟨out, ?_⟩
      unfold analysis_restdays_gaps
      rw [timeOffWalk, if_pos h0t, ho]
      have hcl : classify (t - prev_game_seed) = "opener" := by
        have h480 : (480 : ℚ) < t - prev_game_seed := by
          unfold prev_game_seed
          linarith
        simp [classify, h480]
      rw [hcl]

/-- Witness for the amended C7 at events 500 and 600 hours after the
sentinel. -/
theorem first_event_opener_when_late_witness :
    List.Chain (fun x y : ℚ => x < y) 500 [600] ∧ (480 : ℚ) < 500 ∧
      ((∀ u ∈ ((500 : ℚ) :: [600]), prev_game_seed < u) ∧
        ∃ out, analysis_restdays_gaps ((500 : ℚ) :: [600]) =
          some ((500 - prev_game_seed, "opener") :: out)) :=
  ⟨List.Chain.cons (by norm_num) List.Chain.nil, by norm_num,
    first_event_opener_when_late 500 [600]
      (List.Chain.cons (by norm_num) List.Chain.nil) (by norm_num)⟩

theorem matchCountLoop_eq_card (dayKeys : List Int) (t : Int) :
    ∀ (n : Nat) (d : Int), d = t - (n : Int) →
      matchCountLoop dayKeys t n d =
        ((Finset.Ico d t).filter (fun x => x ∈ dayKeys)).card := by
  intro n
  induction n with
  | zero =>
    intro d hd
    have hdt : d = t := by omega
    subst hdt
    simp [matchCountLoop]
  | succ n ih =>
    intro d hd
    have hdt : d < t := by
      push_cast at hd
      omega
    rw [matchCountLoop, if_pos hdt]
    have hstep : d + 1 = t - (n : Int) := by
      push_cast at hd ⊢
      omega
    rw [ih (d + 1) hstep]
    have hins : Finset.Ico d t = insert d (Finset.Ico (d + 1) t) := by
      ext x
      simp [Finset.mem_Ico, Finset.mem_insert]
      omega
    rw [hins, Finset.filter_insert]
    have hni : d ∉ Finset.Ico (d + 1) t := by
      simp [Finset.mem_Ico]
    have hnotmem : d ∉ Finset.filter (fun x => x ∈ dayKeys) (Finset.Ico (d + 1) t) :=
      fun hx => hni (Finset.mem_of_mem_filter d hx)
    by_cases hmem : d ∈ dayKeys
    · simp [hmem, Finset.card_insert_of_not_mem hnotmem]
      omega
    · simp [hmem]

/-- C5: the rolling count computed by the loop of lines 486-495 equals
the number of calendar days in the half-open window [T - 10 days, T) on
which the entity has an event; in particular, for events on days 1, 5
and 12, the event on day 12 counts 1 and the event on day 1 counts
0. -/
theorem games_in_last_10_days_correct :
    (∀ (dayKeys : List Int) (t : Int),
        games_in_last_10_days dayKeys t = spec_rolling_count dayKeys t) ∧
      games_in_last_10_days [1, 5, 12] 12 = 1 ∧
      games_in_last_10_days [1, 5, 12] 1 = 0 := by
  refine ⟨?_, ?_, ?_⟩
  · intro keys t
    unfold games_in_last_10_days spec_rolling_count
    exact matchCountLoop_eq_card keys t 10 (t - 10) (by norm_num)
  · decide
  · decide

theorem foldl_addEntry_lookup (l : List GameEntry) :
    ∀ (acc : Int → String → Option Int) (s : Int) (t : String),
      List.foldl addEntry acc l s t =
        (if l.filter (fun e => decide (e.season = s ∧ e.team = t)) = [] then acc s t
         else some ((acc s t).getD 0 +
           ((l.filter (fun e => decide (e.season = s ∧ e.team = t))).map
             GameEntry.points).sum)) := by
  induction l with
  | nil =>
    intro acc s t
    simp
  | cons e l ih =>
    intro acc s t
    rw [List.foldl_cons, ih (addEntry acc e) s t]
    by_cases hmatch : e.season = s ∧ e.team = t
    · obtain ⟨h1, h2⟩ := hmatch
      have haE : addEntry acc e s t = some ((acc s t).getD 0 + e.points) := by
        unfold addEntry
        rw [if_pos ⟨h1.symm, h2.symm⟩, h1, h2]
        cases acc s t <;> simp
      have hfilter : (e :: l).filter (fun e2 => decide (e2.season = s ∧ e2.team = t)) =
          e :: l.filter (fun e2 => decide (e2.season = s ∧ e2.team = t)) := by
        simp [List.filter_cons, h1, h2]
      rw [hfilter]
      by_cases hempty : l.filter (fun e2 => decide (e2.season = s ∧ e2.team = t)) = []
      · rw [if_pos hempty, hempty, haE]
        simp
      · rw [if_neg hempty, haE]
        have hne2 : e :: l.filter (fun e2 => decide (e2.season = s ∧ e2.team = t)) ≠ [] := by
          simp
        rw [if_neg hne2]
        simp [add_assoc]
    · have haE : addEntry acc e s t = acc s t := by
        unfold addEntry
        rw [if_neg]
        intro hc
        exact hmatch ⟨hc.1.symm, hc.2.symm⟩
      have hfilter : (e :: l).filter (fun e2 => decide (e2.season = s ∧ e2.team = t)) =
          l.filter (fun e2 => decide (e2.season = s ∧ e2.team = t)) := by
        simp [List.filter_cons, hmatch]
      rw [hfilter, haE]

/-- C9: the standings fold of lines 260-271 is order-independent (any
two enumeration orders of the same entries give identical per-season,
per-team totals), and every populated (season, team) bucket holds
exactly the sum of the points of that season-and-team's entries. -/
theorem analyze_standings_order_independent (l₁ l₂ : List GameEntry)
    (hperm : l₁.Perm l₂) :
    (∀ s t, analyze_standings_totals l₁ s t = analyze_standings_totals l₂ s t) ∧
      (∀ s t, l₁.filter (fun e => decide (e.season = s ∧ e.team = t)) ≠ [] →
        analyze_standings_totals l₁ s t =
          some ((l₁.filter (fun e => decide (e.season = s ∧ e.team = t))).map
            GameEntry.points).sum) := by
  constructor
  · intro s t
    unfold analyze_standings_totals
    rw [foldl_addEntry_lookup, foldl_addEntry_lookup]
    have hpf := hperm.filter (fun e => decide (e.season = s ∧ e.team = t))
    have hsum := (hpf.map GameEntry.points).sum_eq
    by_cases he : l₁.filter (fun e => decide (e.season = s ∧ e.team = t)) = []
    · have he2 : l₂.filter (fun e => decide (e.season = s ∧ e.team = t)) = [] := by
        rw [he] at hpf
        exact (hpf.symm).eq_nil
      rw [if_pos he, if_pos he2]
    · have he2 : l₂.filter (fun e => decide (e.season = s ∧ e.team = t)) ≠ [] := by
        intro hc
        rw [hc] at hpf
        exact he hpf.eq_nil
      rw [if_neg he, if_neg he2, hsum]
  · intro s t hne
    unfold analyze_standings_totals
    rw [foldl_addEntry_lookup, if_neg hne]
    simp

/-- Witness for C9: swapping the first two entries leaves a team's
total unchanged. -/
theorem analyze_standings_order_independent_witness :
    (([⟨2016, "SJS", 2⟩, ⟨2016, "TBL", 0⟩, ⟨2016, "SJS", 1⟩] : List GameEntry).Perm
        ([⟨2016, "TBL", 0⟩, ⟨2016, "SJS", 2⟩, ⟨2016, "SJS", 1⟩] : List GameEntry)) ∧
      analyze_standings_totals
          ([⟨2016, "SJS", 2⟩, ⟨2016, "TBL", 0⟩, ⟨2016, "SJS", 1⟩] : List GameEntry)
          2016 ("SJS") =
        analyze_standings_totals
          ([⟨2016, "TBL", 0⟩, ⟨2016, "SJS", 2⟩, ⟨2016, "SJS", 1⟩] : List GameEntry)
          2016 ("SJS") :=
  ⟨List.Perm.swap _ _ _,
    (analyze_standings_order_independent _ _ (List.Perm.swap _ _ _)).1 2016 ("SJS")⟩

theorem foldl_dayMap_lookup (team : String) (league : List (String × TeamGameRec)) :
    ∀ (m : Int → Option TeamGameRec) (d : Int),
      (league.foldl
        (fun m g =>
          if g.1.takeRight 3 = team then
            fun d2 => if d2 = g.2.dayKey then some g.2 else m d2
          else m)
        m) d =
      (match league.reverse.find?
          (fun g => (g.1.takeRight 3 == team) && (g.2.dayKey == d)) with
       | some g => some g.2
       | none => m d) := by
  induction league with
  | nil =>
    intro m d
    simp
  | cons g l ih =>
    intro m d
    rw [List.foldl_cons, ih]
    rw [List.reverse_cons, List.find?_append]
    cases hfind : l.reverse.find? (fun g => (g.1.takeRight 3 == team) && (g.2.dayKey == d)) with
    | some g2 => simp [Option.or]
    | none =>
      by_cases hteam : g.1.takeRight 3 = team
      · by_cases hday : g.2.dayKey = d
        · simp [List.find?, hteam, hday]
        · have hb : (g.2.dayKey == d) = false := by simp [hday]
          have hday2 : ¬ d = g.2.dayKey := fun hc => hday hc.symm
          simp [List.find?, hteam, hb, hday2]
      · have hb : (g.1.takeRight 3 == team) = false := by simp [hteam]
        simp [List.find?, hteam, hb]

/-- C10: the team map built by lines 424-428 keys a team's games by
local calendar day: the record retained for a day is exactly the
last-enumerated matching entry with that day key, so of two same-day
events of one team the later-enumerated one silently replaces the
earlier, at most one record per day survives, and the downstream gap
and rolling-count passes (lines 439-497) run over this reduced
one-record-per-day series. -/
theorem buildTeamDayMap_last_wins (league : List (String × TeamGameRec))
    (team : String) (d : Int) :
    buildTeamDayMap league team d =
      Option.map Prod.snd (league.reverse.find?
        (fun g => (g.1.takeRight 3 == team) && (g.2.dayKey == d))) := by
  unfold buildTeamDayMap
  rw [foldl_dayMap_lookup]
  cases league.reverse.find? (fun g => (g.1.takeRight 3 == team) && (g.2.dayKey == d)) <;>
    simp

/-- C1: contrary to the claim, no run of scrape_season performs N + 1
fetches or persists anything. Line 68 discards the return value of
scrape_game, so result is unbound when line 72 evaluates it; the
NameError this raises is caught by none of the handlers of lines 80-92,
and every run — whatever the fetch collaborator returns — makes exactly
one fetch, persists nothing and aborts with NameError. -/
theorem scrape_season_always_crashes (fetch : Nat → FetchRec)
    (start_year end_year season_type start_game fuel : Nat) (hfuel : 1 ≤ fuel) :
    scrape_season fetch start_year end_year season_type start_game fuel =
      ⟨[encode_game_id start_year season_type start_game], [],
        some PyExc.nameError⟩ := by
  obtain ⟨k, rfl⟩ : ∃ k, fuel = k + 1 := ⟨fuel - 1, by omega⟩
  unfold scrape_season
  rw [scrape_loop]
  simp [scrape_iteration, tryBlock, evalName, resultBinding]

/-- Witness for C1's theorem at the claim's failing input: era 2016
only, a fake fetch with matching gamePk for sequences 1 and 2 (N = 2),
regular-season kind, starting at game 1. -/
theorem scrape_season_always_crashes_witness :
    1 ≤ 100 ∧
      scrape_season
        (fun id => ⟨if id = 2016020001 ∨ id = 2016020002 then some id else none⟩)
        2016 2016 2 1 100 =
      ⟨[encode_game_id 2016 2 1], [], some PyExc.nameError⟩ :=
  ⟨by norm_num,
    scrape_season_always_crashes
      (fun id => ⟨if id = 2016020001 ∨ id = 2016020002 then some id else none⟩)
      2016 2016 2 1 100 (by norm_num)⟩
